import Mathlib

set_option maxRecDepth 1000000

/-!
Verification of the Niche-Notify change-detection core.

This file shallowly embeds the repository's Python source:

* `utils.py` / the utils section of `api.py`: `compute_hash` (SHA-256 hex
  digest of the UTF-8 encoding, with `None` normalized to `""`) and the
  effect signature of `notify_placeholder`.
* `db.py` / the db section of `api.py`: the monitors table as a list of
  `MonitorRecord`, `update_monitor_content` as a map over that list.
* `worker.py` / the worker section of `api.py`: `process_once`, the
  per-record fetch → extract → compare → persist/notify state machine.
  The two copies of `process_once` (worker.py and api.py) have identical
  branch logic and are embedded once.
* `api.py`: the `/worker/run` and `DELETE /monitors/{id}` endpoints.

External collaborators (the HTTP fetcher `requests.get` and the
BeautifulSoup extractor) are modelled as function parameters: a fetch
oracle `String → Except FetchError String` (url to page text, or the
exception the `try` block catches) and an extract oracle
`String → String → String` (html and css selector to fragment text).
SHA-256 itself is implemented concretely (FIPS 180-4) over `Nat` with
explicit `% 2 ^ 32` reductions, mirroring `hashlib.sha256(...).hexdigest()`.
-/

namespace NicheNotify

/-! ## SHA-256 over natural numbers (embedding of `hashlib.sha256(..).hexdigest()`) -/

/-- Right rotation of a 32-bit word held in a `Nat`. -/
def rotr32 (n x : Nat) : Nat :=
  ((x >>> n) ||| (x <<< (32 - n))) % 4294967296

/-- Addition reduced modulo `2 ^ 32`. -/
def add32 (a b : Nat) : Nat := (a + b) % 4294967296

/-- The big sigma-0 function of FIPS 180-4. -/
def bsig0 (x : Nat) : Nat := (rotr32 2 x) ^^^ (rotr32 13 x) ^^^ (rotr32 22 x)

/-- The big sigma-1 function of FIPS 180-4. -/
def bsig1 (x : Nat) : Nat := (rotr32 6 x) ^^^ (rotr32 11 x) ^^^ (rotr32 25 x)

/-- The small sigma-0 function of FIPS 180-4. -/
def ssig0 (x : Nat) : Nat := (rotr32 7 x) ^^^ (rotr32 18 x) ^^^ (x >>> 3)

/-- The small sigma-1 function of FIPS 180-4. -/
def ssig1 (x : Nat) : Nat := (rotr32 17 x) ^^^ (rotr32 19 x) ^^^ (x >>> 10)

/-- The choice function: bitwise `(x AND y) XOR ((NOT x) AND z)` on 32-bit words. -/
def chFn (x y z : Nat) : Nat := (x &&& y) ^^^ ((x ^^^ 4294967295) &&& z)

/-- The majority function of FIPS 180-4. -/
def majFn (x y z : Nat) : Nat := (x &&& y) ^^^ (x &&& z) ^^^ (y &&& z)

/-- The 64 SHA-256 round constants (FIPS 180-4 §4.2.2), written in decimal. -/
def sha256K : List Nat :=
  [1116352408, 1899447441, 3049323471, 3921009573, 961987163,
   1508970993, 2453635748, 2870763221, 3624381080, 310598401,
   607225278, 1426881987, 1925078388, 2162078206, 2614888103,
   3248222580, 3835390401, 4022224774, 264347078, 604807628,
   770255983, 1249150122, 1555081692, 1996064986, 2554220882,
   2821834349, 2952996808, 3210313671, 3336571891, 3584528711,
   113926993, 338241895, 666307205, 773529912, 1294757372,
   1396182291, 1695183700, 1986661051, 2177026350, 2456956037,
   2730485921, 2820302411, 3259730800, 3345764771, 3516065817,
   3600352804, 4094571909, 275423344, 430227734, 506948616,
   659060556, 883997877, 958139571, 1322822218, 1537002063,
   1747873779, 1955562222, 2024104815, 2227730452, 2361852424,
   2428436474, 2756734187, 3204031479, 3329325298]

/-- The 8 SHA-256 initial hash values (FIPS 180-4 §5.3.3), written in decimal. -/
def sha256H0 : List Nat :=
  [1779033703, 3144134277, 1013904242, 2773480762,
   1359893119, 2600822924, 528734635, 1541459225]

/-- SHA-256 padding: append `0x80`, zero bytes up to 56 mod 64, then the
bit length as 8 big-endian bytes. -/
def sha256Pad (msg : List Nat) : List Nat :=
  let bitLen := 8 * msg.length
  let k := (56 + 64 - ((msg.length + 1) % 64)) % 64
  msg ++ [128] ++ List.replicate k 0 ++
    (List.range 8).map (fun i => (bitLen >>> (8 * (7 - i))) % 256)

/-- Helper for `chunks64`: structural recursion on a fuel bound so that the
kernel can evaluate it; the fuel is always at least the list length. -/
def chunks64Go : Nat → List Nat → List (List Nat)
  | _, [] => []
  | 0, bs => [bs]
  | fuel + 1, b :: rest => (b :: rest).take 64 :: chunks64Go fuel ((b :: rest).drop 64)

/-- Split a byte list into 64-byte chunks. -/
def chunks64 (bs : List Nat) : List (List Nat) :=
  chunks64Go bs.length bs

/-- The 16 message words of a 64-byte block, big-endian. -/
def blockWords (block : List Nat) : Array Nat :=
  (List.range 16).foldl
    (fun ws j =>
      ws.push (block.getD (4 * j) 0 * 16777216 + block.getD (4 * j + 1) 0 * 65536 +
               block.getD (4 * j + 2) 0 * 256 + block.getD (4 * j + 3) 0))
    #[]

/-- Extend 16 message words to the 64-word message schedule. -/
def extendWords (w0 : Array Nat) : Array Nat :=
  (List.range 48).foldl
    (fun w t =>
      let i := t + 16
      w.push ((w.getD (i - 16) 0 + ssig0 (w.getD (i - 15) 0) + w.getD (i - 7) 0 +
               ssig1 (w.getD (i - 2) 0)) % 4294967296))
    w0

/-- One SHA-256 compression step over a 64-byte block; `hs` is the 8-word state. -/
def sha256Compress (hs : List Nat) (block : List Nat) : List Nat :=
  let w := extendWords (blockWords block)
  let fin := (List.range 64).foldl
    (fun st t =>
      let a := st.getD 0 0
      let b := st.getD 1 0
      let c := st.getD 2 0
      let d := st.getD 3 0
      let e := st.getD 4 0
      let f := st.getD 5 0
      let g := st.getD 6 0
      let hh := st.getD 7 0
      let t1 := (hh + bsig1 e + chFn e f g + sha256K.getD t 0 + w.getD t 0) % 4294967296
      let t2 := (bsig0 a + majFn a b c) % 4294967296
      [(t1 + t2) % 4294967296, a, b, c, (d + t1) % 4294967296, e, f, g])
    hs
  (List.range 8).map (fun i => (hs.getD i 0 + fin.getD i 0) % 4294967296)

/-- Lower-case hex digit for a nibble. -/
def hexDigit (n : Nat) : Char :=
  if n < 10 then Char.ofNat (48 + n) else Char.ofNat (87 + (n % 16))

/-- A 32-bit word as 8 lower-case hex characters, most significant first. -/
def wordHex (x : Nat) : List Char :=
  (List.range 8).map (fun i => hexDigit ((x >>> (4 * (7 - i))) % 16))

/-- SHA-256 of a byte list, as the usual 64-character lower-case hex string. -/
def sha256Hex (msg : List Nat) : String :=
  let hs := (chunks64 (sha256Pad msg)).foldl sha256Compress sha256H0
  String.mk ((hs.map wordHex).flatten)

/-- UTF-8 encoding of one Unicode scalar value. -/
def utf8EncodeChar (n : Nat) : List Nat :=
  if n < 128 then [n]
  else if n < 2048 then [192 + n / 64, 128 + n % 64]
  else if n < 65536 then [224 + n / 4096, 128 + (n / 64) % 64, 128 + n % 64]
  else [240 + n / 262144, 128 + (n / 4096) % 64, 128 + (n / 64) % 64, 128 + n % 64]

/-- UTF-8 encoding of a string, as `text.encode("utf-8")` produces. -/
def utf8Encode (s : String) : List Nat :=
  (s.data.map (fun c => utf8EncodeChar c.toNat)).flatten

/-- Embedding of `utils.compute_hash` / `api.compute_hash`: `None` is
normalized to `""`, then `hashlib.sha256(text.encode("utf-8")).hexdigest()`. -/
def compute_hash (text : Option String) : String :=
  let t := match text with
    | none => ""
    | some s => s
  sha256Hex (utf8Encode t)

/-! ## Data model and Python string helpers -/

/-- A row of the `monitors` table (`db.create_schema`): `id SERIAL PRIMARY KEY`,
`url`, `css_selector`, `user_email`, `last_content TEXT` (nullable), and
`last_checked_at` (a timestamp, abstracted to `Nat`). -/
structure MonitorRecord where
  id : Nat
  url : String
  css_selector : String
  user_email : String
  last_content : Option String
  last_checked_at : Nat
deriving DecidableEq, Repr

/-- The exception `fetch_html` raises (`requests` exceptions / non-2xx via
`raise_for_status`); the worker's `try` block catches it. -/
structure FetchError where
  msg : String
deriving DecidableEq, Repr

/-- Python truthiness-based defaulting: the expression
`m.get("last_content") or ""` maps `None` and `""` to `""` and keeps any
other string. -/
def pyOrEmpty (v : Option String) : String :=
  match v with
  | none => ""
  | some s => if s = "" then "" else s

/-- Whitespace characters removed by Python's `str.strip()` (the ASCII ones:
space, tab, newline, carriage return, vertical tab, form feed). -/
def isPySpace (c : Char) : Bool :=
  c = ' ' || c = '\t' || c = '\n' || c = '\r' || c.toNat = 11 || c.toNat = 12

/-- Embedding of Python's `str.strip()`: drop leading and trailing whitespace. -/
def pyStrip (s : String) : String :=
  String.mk (((s.data.dropWhile isPySpace).reverse.dropWhile isPySpace).reverse)

/-! ## The per-record check (`worker.process_once` loop body / `api.process_once`)

The body of the `for m in monitors:` loop emits, in program order, the
observable effects on the outside world: the notification printed by
`notify_placeholder` and the row update performed by
`update_monitor_content`.  Both copies of `process_once` (`worker.py` and
`api.py`) have byte-identical branch logic and are embedded once. -/

/-- An observable effect of one record check, in the order the Python code
performs them: a `notify_placeholder(email, url, old, new)` call or an
`update_monitor_content(mid, content)` call (which also sets
`last_checked_at` to the current time). -/
inductive Event where
  | notified (email url old new : String)
  | storeWrite (mid : Nat) (content : String) (time : Nat)
deriving DecidableEq, Repr

/-- One iteration of the `for m in monitors:` loop of `process_once`, as the
list of effects it emits.  `fetch` is the `fetch_html` oracle (the `.error`
case is the exception path caught by the surrounding `try`), `extract` is the
`extract_with_selector` oracle, and `now` is the time `NOW()` the database
writes into `last_checked_at`. -/
def processRecord (fetch : String → Except FetchError String)
    (extract : String → String → String) (now : Nat) (m : MonitorRecord) :
    List Event :=
  let last_content := pyOrEmpty m.last_content
  match fetch m.url with
  | .error _ => []
  | .ok html =>
    let new_text := extract html m.css_selector
    if pyStrip last_content = "" then
      [Event.storeWrite m.id new_text now]
    else if compute_hash (some new_text) ≠ compute_hash (some last_content) then
      [Event.notified m.user_email m.url last_content new_text,
       Event.storeWrite m.id new_text now]
    else
      []

/-- Embedding of `db.update_monitor_content` / `api.update_monitor_content`:
`UPDATE monitors SET last_content = %s, last_checked_at = NOW() WHERE id = %s`. -/
def update_monitor_content (store : List MonitorRecord) (monitor_id : Nat)
    (new_content : String) (now : Nat) : List MonitorRecord :=
  store.map (fun r =>
    if r.id = monitor_id then
      { r with last_content := some new_content, last_checked_at := now }
    else r)

/-- Apply one effect to the store: notifications do not touch the store,
writes go through `update_monitor_content`. -/
def applyEvent (store : List MonitorRecord) (e : Event) : List MonitorRecord :=
  match e with
  | .notified _ _ _ _ => store
  | .storeWrite mid c t => update_monitor_content store mid c t

/-- The effect of one event on one row. -/
def applyEventRecord (e : Event) (r : MonitorRecord) : MonitorRecord :=
  match e with
  | .notified _ _ _ _ => r
  | .storeWrite mid c t =>
    if r.id = mid then { r with last_content := some c, last_checked_at := t } else r

/-- Embedding of `process_once`: `get_all_monitors()` returns the current
rows, the loop processes each row of that snapshot in order, and every
`update_monitor_content` call lands on the database.  The result is the
final table contents together with the full effect trace in program order. -/
def process_once (fetch : String → Except FetchError String)
    (extract : String → String → String) (now : Nat)
    (store : List MonitorRecord) : List MonitorRecord × List Event :=
  let events := (store.map (processRecord fetch extract now)).flatten
  (events.foldl applyEvent store, events)

/-- The notifications contained in an effect trace, in order, as
`(email, url, old, new)` quadruples — the arguments of `notify_placeholder`. -/
def notifications (events : List Event) : List (String × String × String × String) :=
  events.filterMap (fun e =>
    match e with
    | .notified a b c d => some (a, b, c, d)
    | _ => none)

/-- The row a single record check leaves behind for that record: its own
effect trace applied to it. -/
def recordResult (fetch : String → Except FetchError String)
    (extract : String → String → String) (now : Nat) (m : MonitorRecord) :
    MonitorRecord :=
  (processRecord fetch extract now m).foldl (fun r e => applyEventRecord e r) m

/-! ## API endpoints (`api.py`) -/

/-- Outcome of `POST /worker/run` (`api.run_worker_endpoint`): HTTP 500 when
`WORKER_SECRET` is falsy, HTTP 403 on mismatch, otherwise success. -/
inductive RunWorkerResponse where
  | serverError (detail : String)
  | forbidden (detail : String)
  | ok (message : String)
deriving DecidableEq, Repr

/-- Python truthiness of `os.getenv(..)`: `None` (unset) and `""` are falsy. -/
def pyTruthyStr (v : Option String) : Bool :=
  match v with
  | none => false
  | some s => !(s == "")

/-- Embedding of `api.run_worker_endpoint`: `workerSecret` is
`os.getenv("WORKER_SECRET")` (`none` when unset), `secret` is the caller's
query parameter.  `if not WORKER_SECRET:` raises 500, `if secret !=
WORKER_SECRET:` raises 403, otherwise `process_once()` runs; the returned
store and trace are those of that single batch. -/
def run_worker_endpoint (workerSecret : Option String) (secret : String)
    (fetch : String → Except FetchError String)
    (extract : String → String → String) (now : Nat)
    (store : List MonitorRecord) :
    RunWorkerResponse × List MonitorRecord × List Event :=
  match workerSecret with
  | none => (.serverError "Worker is not configured", store, [])
  | some ws =>
    if ws = "" then (.serverError "Worker is not configured", store, [])
    else if secret ≠ ws then (.forbidden "Invalid secret", store, [])
    else
      let res := process_once fetch extract now store
      (.ok "Worker process completed successfully.", res.1, res.2)

/-- Outcome of `DELETE /monitors/{monitor_id}` (`api.delete_monitor_endpoint`):
the deleted id on success (HTTP 200 with the id in the body), otherwise
HTTP 500.  The handler raises `HTTPException(status_code=404)` for a missing
row *inside* its `try`, and the blanket `except Exception as e` clause
catches it (`HTTPException` subclasses `Exception`) and re-raises it as
`HTTPException(status_code=500, detail=str(e))` — so the endpoint never
actually answers 404; its miss path is a 500 whose detail stringifies the
swallowed 404 exception (the exact detail text depends on the installed
Starlette version and is not modelled). -/
inductive DeleteResponse where
  | deleted (id : Nat)
  | serverError
deriving DecidableEq, Repr

/-- Embedding of `api.delete_monitor_endpoint`: `DELETE FROM monitors WHERE
id = %s RETURNING id`, a normal return with the id when a row was returned,
and otherwise the in-`try` 404 raise that the blanket `except Exception`
re-raises as HTTP 500 (see `DeleteResponse`).  The commit precedes the
raise, so the table state on the miss path is the unchanged table.  The
Python handler's signature is `(monitor_id: int)` only; an `ownerKey` query
parameter sent by a caller is dropped by FastAPI before the handler runs,
so it is carried here as an argument the body never consults. -/
def delete_monitor_endpoint (store : List MonitorRecord) (monitor_id : Nat)
    (ownerKey : Option String) : DeleteResponse × List MonitorRecord :=
  let remaining := store.filter (fun r => !(r.id == monitor_id))
  if store.any (fun r => r.id == monitor_id) then
    (.deleted monitor_id, remaining)
  else
    (.serverError, store)

/-! ## Concrete fixtures for evaluating the model on sample runs -/

/-- Does an event write the row with the given id? -/
def eventWritesId (e : Event) (i : Nat) : Bool :=
  match e with
  | .storeWrite mid _ _ => mid == i
  | .notified _ _ _ _ => false

/-- A fetch oracle that always succeeds with a page whose fragment is `World`. -/
def fetchWorld : String → Except FetchError String := fun _ => Except.ok "<h1>World</h1>"

/-- A fetch oracle that always succeeds with a page whose fragment is `Hello`. -/
def fetchHello : String → Except FetchError String := fun _ => Except.ok "<h1>Hello</h1>"

/-- A fetch oracle that always succeeds with a page whose fragment is empty. -/
def fetchEmptyPage : String → Except FetchError String := fun _ => Except.ok "<h1></h1>"

/-- An extract oracle returning `World` for every page. -/
def extractWorld : String → String → String := fun _ _ => "World"

/-- An extract oracle returning `Hello` for every page. -/
def extractHello : String → String → String := fun _ _ => "Hello"

/-- An extract oracle returning the empty fragment (selector missing). -/
def extractNone : String → String → String := fun _ _ => ""

/-- An extract oracle returning `Hi` for every page. -/
def extractHi : String → String → String := fun _ _ => "Hi"

/-- A monitor row whose last stored fragment is `Hello`. -/
def recHello : MonitorRecord :=
  ⟨1, "http://example.com/a", "h1", "owner@example.com", some "Hello", 3⟩

/-- A never-checked monitor row (`last_content` is NULL). -/
def recVirgin : MonitorRecord :=
  ⟨2, "http://example.com/b", "p", "second@example.com", none, 0⟩

/-- A monitor row whose last stored fragment is the empty string. -/
def recEmptyStored : MonitorRecord :=
  ⟨3, "http://example.com/c", "h1", "third@example.com", some "", 4⟩

/-- A fetch oracle that fails for `recHello`'s url and succeeds elsewhere. -/
def fetchFailFirst : String → Except FetchError String :=
  fun u =>
    if u = "http://example.com/a" then Except.error ⟨"connection refused"⟩
    else Except.ok "<p>Hi</p>"

/-! ## Helper lemmas about the batch semantics -/

/-- Applying one event to the store acts row-wise. -/
theorem applyEvent_eq_map (store : List MonitorRecord) (e : Event) :
    applyEvent store e = store.map (applyEventRecord e) := by
  cases e with
  | notified a b c d =>
    have h : applyEventRecord (Event.notified a b c d) = fun r => r := rfl
    rw [h]
    simp [applyEvent]
  | storeWrite mid c t => rfl

/-- Folding an effect trace over the store acts row-wise. -/
theorem foldl_applyEvent (events : List Event) (store : List MonitorRecord) :
    events.foldl applyEvent store =
      store.map (fun r => events.foldl (fun r e => applyEventRecord e r) r) := by
  induction events generalizing store with
  | nil => simp
  | cons e es ih =>
    simp only [List.foldl_cons]
    rw [applyEvent_eq_map, ih, List.map_map]
    rfl

/-- Events never change a row's id. -/
theorem applyEventRecord_id (e : Event) (r : MonitorRecord) :
    (applyEventRecord e r).id = r.id := by
  cases e with
  | notified a b c d => rfl
  | storeWrite mid c t =>
    simp only [applyEventRecord]
    split <;> rfl

/-- Folding a trace never changes a row's id. -/
theorem foldl_record_id (es : List Event) (r : MonitorRecord) :
    (es.foldl (fun r e => applyEventRecord e r) r).id = r.id := by
  induction es generalizing r with
  | nil => rfl
  | cons e es ih =>
    simp only [List.foldl_cons]
    rw [ih, applyEventRecord_id]

/-- `recordResult` never changes a row's id. -/
theorem recordResult_id (fetch : String → Except FetchError String)
    (extract : String → String → String) (now : Nat) (m : MonitorRecord) :
    (recordResult fetch extract now m).id = m.id :=
  foldl_record_id _ m

/-- An event that does not write a row's id leaves that row alone. -/
theorem applyEventRecord_skip {e : Event} {r : MonitorRecord}
    (h : eventWritesId e r.id = false) : applyEventRecord e r = r := by
  cases e with
  | notified a b c d => rfl
  | storeWrite mid c t =>
    simp only [eventWritesId, beq_eq_false_iff_ne, ne_eq] at h
    simp only [applyEventRecord]
    rw [if_neg (fun hh => h hh.symm)]

/-- A trace none of whose events writes a row's id leaves that row alone. -/
theorem foldl_record_skip {es : List Event} {r : MonitorRecord}
    (h : ∀ e ∈ es, eventWritesId e r.id = false) :
    es.foldl (fun r e => applyEventRecord e r) r = r := by
  induction es with
  | nil => rfl
  | cons e es ih =>
    simp only [List.foldl_cons]
    rw [applyEventRecord_skip (h e (by simp))]
    exact ih (fun e' he' => h e' (by simp [he']))

/-- A record check only ever writes its own row id. -/
theorem processRecord_skip {fetch : String → Except FetchError String}
    {extract : String → String → String} {now : Nat} {m : MonitorRecord}
    {i : Nat} (hne : i ≠ m.id) :
    ∀ e ∈ processRecord fetch extract now m, eventWritesId e i = false := by
  intro e he
  simp only [processRecord] at he
  split at he
  · simp at he
  · split at he
    · simp only [List.mem_singleton] at he
      subst he
      simp [eventWritesId, Ne.symm hne]
    · split at he
      · simp only [List.mem_cons, List.mem_singleton] at he
        rcases he with he | he | he
        · subst he; rfl
        · subst he; simp [eventWritesId, Ne.symm hne]
        · simp at he
      · simp at he

/-- The effects of other records' checks leave a row alone. -/
theorem foldl_record_other {fetch : String → Except FetchError String}
    {extract : String → String → String} {now : Nat}
    {ms : List MonitorRecord} {r : MonitorRecord}
    (h : ∀ m ∈ ms, r.id ≠ m.id) :
    ((ms.map (processRecord fetch extract now)).flatten).foldl
      (fun r e => applyEventRecord e r) r = r := by
  apply foldl_record_skip
  intro e he
  rw [List.mem_flatten] at he
  obtain ⟨l, hl, hel⟩ := he
  rw [List.mem_map] at hl
  obtain ⟨m, hm, rfl⟩ := hl
  exact processRecord_skip (h m hm) e hel

/-- With neighbours of different ids on both sides, folding the whole batch
trace over a row yields exactly that row's own check result. -/
theorem fold_events_eq_recordResult {fetch : String → Except FetchError String}
    {extract : String → String → String} {now : Nat}
    {l1 l2 : List MonitorRecord} {r : MonitorRecord}
    (h1 : ∀ m ∈ l1, r.id ≠ m.id) (h2 : ∀ m ∈ l2, r.id ≠ m.id) :
    (((l1 ++ r :: l2).map (processRecord fetch extract now)).flatten).foldl
        (fun r e => applyEventRecord e r) r
      = recordResult fetch extract now r := by
  rw [List.map_append, List.map_cons, List.flatten_append, List.flatten_cons,
      List.foldl_append, List.foldl_append, foldl_record_other h1]
  show ((l2.map (processRecord fetch extract now)).flatten).foldl
      (fun r e => applyEventRecord e r) (recordResult fetch extract now r) = _
  rw [foldl_record_other (fun m hm => by rw [recordResult_id]; exact h2 m hm)]

/-- With pairwise distinct row ids (the `SERIAL PRIMARY KEY` invariant), one
batch leaves the table as the row-wise check results. -/
theorem process_once_store_eq {fetch : String → Except FetchError String}
    {extract : String → String → String} {now : Nat}
    {store : List MonitorRecord}
    (h : (store.map MonitorRecord.id).Nodup) :
    (process_once fetch extract now store).1 = store.map (recordResult fetch extract now) := by
  show (((store.map (processRecord fetch extract now)).flatten).foldl applyEvent store) = _
  rw [foldl_applyEvent]
  apply List.map_congr_left
  intro r hr
  obtain ⟨l1, l2, rfl⟩ := List.append_of_mem hr
  rw [List.map_append, List.map_cons, List.nodup_append] at h
  obtain ⟨hn1, hn2, hdisj⟩ := h
  rw [List.nodup_cons] at hn2
  have h1 : ∀ m ∈ l1, r.id ≠ m.id := by
    intro m hm heq
    exact hdisj (List.mem_map.mpr ⟨m, hm, heq.symm⟩) (List.mem_cons_self _ _)
  have h2 : ∀ m ∈ l2, r.id ≠ m.id := by
    intro m hm heq
    exact hn2.1 (List.mem_map.mpr ⟨m, hm, heq.symm⟩)
  exact fold_events_eq_recordResult h1 h2

/-- A failed fetch emits no effects. -/
theorem processRecord_fail {fetch : String → Except FetchError String}
    {extract : String → String → String} {now : Nat} {m : MonitorRecord}
    {err : FetchError} (h : fetch m.url = .error err) :
    processRecord fetch extract now m = [] := by
  simp [processRecord, h]

/-- A failed fetch leaves the row bit-for-bit unchanged. -/
theorem recordResult_fail {fetch : String → Except FetchError String}
    {extract : String → String → String} {now : Nat} {m : MonitorRecord}
    {err : FetchError} (h : fetch m.url = .error err) :
    recordResult fetch extract now m = m := by
  unfold recordResult
  rw [processRecord_fail h]
  rfl

/-- Python's `v or ""` keeps the content of a present value. -/
theorem pyOrEmpty_some (s : String) : pyOrEmpty (some s) = s := by
  simp only [pyOrEmpty]
  split <;> simp_all

/-- Snapshot branch: a trim-empty stored fragment makes a successful check
emit exactly one store write and nothing else. -/
theorem processRecord_snapshot {fetch : String → Except FetchError String}
    {extract : String → String → String} {now : Nat} {m : MonitorRecord} {html : String}
    (hfetch : fetch m.url = Except.ok html)
    (hvirgin : pyStrip (pyOrEmpty m.last_content) = "") :
    processRecord fetch extract now m =
      [Event.storeWrite m.id (extract html m.css_selector) now] := by
  simp only [processRecord, hfetch]
  rw [if_pos hvirgin]

/-- Changed branch: a trim-nonempty stored fragment and a fingerprint
difference make a successful check notify and then write, in that order. -/
theorem processRecord_changed {fetch : String → Except FetchError String}
    {extract : String → String → String} {now : Nat} {m : MonitorRecord} {html : String}
    (hfetch : fetch m.url = Except.ok html)
    (hnonempty : pyStrip (pyOrEmpty m.last_content) ≠ "")
    (hdiff : compute_hash (some (extract html m.css_selector))
              ≠ compute_hash (some (pyOrEmpty m.last_content))) :
    processRecord fetch extract now m =
      [Event.notified m.user_email m.url (pyOrEmpty m.last_content) (extract html m.css_selector),
       Event.storeWrite m.id (extract html m.css_selector) now] := by
  simp only [processRecord, hfetch]
  rw [if_neg hnonempty, if_pos hdiff]

/-- Unchanged branch: equal fingerprints make a successful check emit nothing. -/
theorem processRecord_unchanged {fetch : String → Except FetchError String}
    {extract : String → String → String} {now : Nat} {m : MonitorRecord} {html : String}
    (hfetch : fetch m.url = Except.ok html)
    (hnonempty : pyStrip (pyOrEmpty m.last_content) ≠ "")
    (hsame : compute_hash (some (extract html m.css_selector))
              = compute_hash (some (pyOrEmpty m.last_content))) :
    processRecord fetch extract now m = [] := by
  simp only [processRecord, hfetch]
  rw [if_neg hnonempty, if_neg (not_not_intro hsame)]

/-- The row after a snapshot-branch check. -/
theorem recordResult_snapshot {fetch : String → Except FetchError String}
    {extract : String → String → String} {now : Nat} {m : MonitorRecord} {html : String}
    (hfetch : fetch m.url = Except.ok html)
    (hvirgin : pyStrip (pyOrEmpty m.last_content) = "") :
    recordResult fetch extract now m =
      { m with last_content := some (extract html m.css_selector), last_checked_at := now } := by
  unfold recordResult
  rw [processRecord_snapshot hfetch hvirgin]
  simp [applyEventRecord]

/-- The row after a changed-branch check. -/
theorem recordResult_changed {fetch : String → Except FetchError String}
    {extract : String → String → String} {now : Nat} {m : MonitorRecord} {html : String}
    (hfetch : fetch m.url = Except.ok html)
    (hnonempty : pyStrip (pyOrEmpty m.last_content) ≠ "")
    (hdiff : compute_hash (some (extract html m.css_selector))
              ≠ compute_hash (some (pyOrEmpty m.last_content))) :
    recordResult fetch extract now m =
      { m with last_content := some (extract html m.css_selector), last_checked_at := now } := by
  unfold recordResult
  rw [processRecord_changed hfetch hnonempty hdiff]
  simp [applyEventRecord]

/-- The row after an unchanged-branch check: exactly the old row. -/
theorem recordResult_unchanged {fetch : String → Except FetchError String}
    {extract : String → String → String} {now : Nat} {m : MonitorRecord} {html : String}
    (hfetch : fetch m.url = Except.ok html)
    (hnonempty : pyStrip (pyOrEmpty m.last_content) ≠ "")
    (hsame : compute_hash (some (extract html m.css_selector))
              = compute_hash (some (pyOrEmpty m.last_content))) :
    recordResult fetch extract now m = m := by
  unfold recordResult
  rw [processRecord_unchanged hfetch hnonempty hsame]
  rfl

/-! ## The claims -/

/-- Claim C1: for every monitor record whose stored `lastContent` is non-empty
after whitespace trimming, if processing the record fetches successfully and
the extracted text differs (by fingerprint) from the stored `lastContent`,
then exactly one notification is emitted carrying
`(ownerEmail, targetUrl, old = stored lastContent, new = extracted text)`,
and only after that notification is the store updated so `lastContent`
becomes the extracted text: the effect trace is exactly the notification
followed by the store write, and the resulting row carries the extracted
text (with the new timestamp). -/
theorem changed_notifies_then_writes
    (fetch : String → Except FetchError String) (extract : String → String → String)
    (now : Nat) (m : MonitorRecord) (s html : String)
    (hstored : m.last_content = some s)
    (hnonempty : pyStrip s ≠ "")
    (hfetch : fetch m.url = Except.ok html)
    (hdiff : compute_hash (some (extract html m.css_selector)) ≠ compute_hash (some s)) :
    processRecord fetch extract now m =
      [Event.notified m.user_email m.url s (extract html m.css_selector),
       Event.storeWrite m.id (extract html m.css_selector) now]
    ∧ notifications (processRecord fetch extract now m) =
      [(m.user_email, m.url, s, extract html m.css_selector)]
    ∧ recordResult fetch extract now m =
      { m with last_content := some (extract html m.css_selector), last_checked_at := now } := by
  have hold : pyOrEmpty m.last_content = s := by rw [hstored, pyOrEmpty_some]
  have hne : pyStrip (pyOrEmpty m.last_content) ≠ "" := by rw [hold]; exact hnonempty
  have hd : compute_hash (some (extract html m.css_selector))
      ≠ compute_hash (some (pyOrEmpty m.last_content)) := by rw [hold]; exact hdiff
  have hpr := @processRecord_changed fetch extract now m html hfetch hne hd
  rw [hold] at hpr
  exact ⟨hpr, by rw [hpr]; rfl, @recordResult_changed fetch extract now m html hfetch hne hd⟩

/-- Witness for the changed branch: the record storing `Hello` checked while
the live fragment is `World` notifies once with old `Hello`, new `World`,
then stores `World`. -/
theorem changed_notifies_then_writes_witness :
    processRecord fetchWorld extractWorld 5 recHello =
      [Event.notified "owner@example.com" "http://example.com/a" "Hello" "World",
       Event.storeWrite 1 "World" 5]
    ∧ notifications (processRecord fetchWorld extractWorld 5 recHello) =
      [("owner@example.com", "http://example.com/a", "Hello", "World")]
    ∧ recordResult fetchWorld extractWorld 5 recHello =
      { recHello with last_content := some "World", last_checked_at := 5 } :=
  changed_notifies_then_writes fetchWorld extractWorld 5 recHello "Hello" "<h1>World</h1>"
    rfl (by decide) rfl (by decide)

/-- Claim C2: for every monitor record whose stored `lastContent` is absent,
empty, or whitespace-only, one successful processing step takes the
FIRST_SNAPSHOT branch: the store is updated with the newly extracted text
(and timestamp) and no notification is emitted — regardless of the new text
(the statement quantifies over every extract oracle, so over empty and
non-empty new text alike); the branch discriminator is trim-emptiness of
the previously stored value, never of the new value. -/
theorem first_snapshot_records_without_notify
    (fetch : String → Except FetchError String) (extract : String → String → String)
    (now : Nat) (m : MonitorRecord) (html : String)
    (hvirgin : pyStrip (pyOrEmpty m.last_content) = "")
    (hfetch : fetch m.url = Except.ok html) :
    processRecord fetch extract now m =
      [Event.storeWrite m.id (extract html m.css_selector) now]
    ∧ notifications (processRecord fetch extract now m) = []
    ∧ recordResult fetch extract now m =
      { m with last_content := some (extract html m.css_selector), last_checked_at := now } := by
  have hpr := @processRecord_snapshot fetch extract now m html hfetch hvirgin
  exact ⟨hpr, by rw [hpr]; rfl, @recordResult_snapshot fetch extract now m html hfetch hvirgin⟩

/-- Witness for the first-snapshot branch: a never-checked record processed
once with extracted text `World` stores `World` and does not notify. -/
theorem first_snapshot_records_without_notify_witness :
    processRecord fetchWorld extractWorld 7 recVirgin = [Event.storeWrite 2 "World" 7]
    ∧ notifications (processRecord fetchWorld extractWorld 7 recVirgin) = []
    ∧ recordResult fetchWorld extractWorld 7 recVirgin =
      { recVirgin with last_content := some "World", last_checked_at := 7 } :=
  first_snapshot_records_without_notify fetchWorld extractWorld 7 recVirgin
    "<h1>World</h1>" (by decide) rfl

/-- Claim C3: for every monitor record whose stored `lastContent` is non-empty
after trimming, if processing fetches successfully and the fingerprint of the
extracted text equals the fingerprint of the stored `lastContent`, the step
performs no store write and emits no notification — the effect trace is empty
and the entire row (every field) is left unchanged. -/
theorem unchanged_no_write_no_notify
    (fetch : String → Except FetchError String) (extract : String → String → String)
    (now : Nat) (m : MonitorRecord) (s html : String)
    (hstored : m.last_content = some s)
    (hnonempty : pyStrip s ≠ "")
    (hfetch : fetch m.url = Except.ok html)
    (hsame : compute_hash (some (extract html m.css_selector)) = compute_hash (some s)) :
    processRecord fetch extract now m = []
    ∧ recordResult fetch extract now m = m := by
  have hold : pyOrEmpty m.last_content = s := by rw [hstored, pyOrEmpty_some]
  have hne : pyStrip (pyOrEmpty m.last_content) ≠ "" := by rw [hold]; exact hnonempty
  have hs : compute_hash (some (extract html m.css_selector))
      = compute_hash (some (pyOrEmpty m.last_content)) := by rw [hold]; exact hsame
  exact ⟨@processRecord_unchanged fetch extract now m html hfetch hne hs,
         @recordResult_unchanged fetch extract now m html hfetch hne hs⟩

/-- Witness for the unchanged branch: the record storing `Hello` checked while
the live fragment is still `Hello` emits nothing and is left unchanged. -/
theorem unchanged_no_write_no_notify_witness :
    processRecord fetchHello extractHello 9 recHello = []
    ∧ recordResult fetchHello extractHello 9 recHello = recHello :=
  unchanged_no_write_no_notify fetchHello extractHello 9 recHello "Hello" "<h1>Hello</h1>"
    rfl (by decide) rfl rfl

/-- Claim C4: in any batch, a record whose fetch raises `FetchError` is left
bit-for-bit unchanged (it appears unmodified in the final table and
contributes no events, so no partial write and no notification), while every
other record — in particular every subsequent one — is still fully
processed: the final table carries their check results and the batch trace
is exactly the concatenation of their effect traces. -/
theorem fetch_error_isolated
    (fetch : String → Except FetchError String) (extract : String → String → String)
    (now : Nat) (pre post : List MonitorRecord) (mfail : MonitorRecord) (err : FetchError)
    (hfail : fetch mfail.url = Except.error err)
    (hnodup : ((pre ++ mfail :: post).map MonitorRecord.id).Nodup) :
    (process_once fetch extract now (pre ++ mfail :: post)).1
      = pre.map (recordResult fetch extract now)
        ++ mfail :: post.map (recordResult fetch extract now)
    ∧ (process_once fetch extract now (pre ++ mfail :: post)).2
      = (pre.map (processRecord fetch extract now)).flatten
        ++ (post.map (processRecord fetch extract now)).flatten := by
  constructor
  · rw [process_once_store_eq hnodup, List.map_append, List.map_cons,
        recordResult_fail hfail]
  · show ((pre ++ mfail :: post).map (processRecord fetch extract now)).flatten = _
    rw [List.map_append, List.map_cons, processRecord_fail hfail,
        List.flatten_append, List.flatten_cons]
    rfl

/-- Witness for error isolation: a two-record batch where the first record's
fetch fails and the second succeeds — the first record is untouched and the
second is still processed. -/
theorem fetch_error_isolated_witness :
    (process_once fetchFailFirst extractHi 9 ([] ++ recHello :: [recVirgin])).1
      = [].map (recordResult fetchFailFirst extractHi 9)
        ++ recHello :: [recVirgin].map (recordResult fetchFailFirst extractHi 9)
    ∧ (process_once fetchFailFirst extractHi 9 ([] ++ recHello :: [recVirgin])).2
      = ([].map (processRecord fetchFailFirst extractHi 9)).flatten
        ++ ([recVirgin].map (processRecord fetchFailFirst extractHi 9)).flatten :=
  fetch_error_isolated fetchFailFirst extractHi 9 [] [recVirgin] recHello
    ⟨"connection refused"⟩ rfl (by decide)

/-- Claim C5, counterexample: a record whose fetch succeeds but whose fragment
is unchanged keeps its stale `lastCheckedAt` (here 3, not this run's time 9),
so it is not true that every record whose fetch did not fail ends the run
with a `lastCheckedAt` corresponding to this run. -/
theorem unchanged_keeps_stale_timestamp :
    fetchHello recHello.url = Except.ok "<h1>Hello</h1>"
    ∧ (process_once fetchHello extractHello 9 [recHello]).1 = [recHello]
    ∧ recHello.last_checked_at = 3 := by
  refine ⟨rfl, ?_, rfl⟩
  decide

/-- Claim C5, amended: after one batch over a table with pairwise distinct
ids, the final table is exactly the row-wise check results; a record whose
fetch failed is exactly as it was before the run, and a record whose fetch
succeeded either took a writing branch (first snapshot or changed) — its
`lastContent` is the newly extracted text and its `lastCheckedAt` is this
run's time, mutually consistent — or took the unchanged branch and is left
entirely untouched, stale `lastCheckedAt` included. -/
theorem run_completion_characterization
    (fetch : String → Except FetchError String) (extract : String → String → String)
    (now : Nat) (store : List MonitorRecord)
    (hnodup : (store.map MonitorRecord.id).Nodup) :
    (process_once fetch extract now store).1 = store.map (recordResult fetch extract now)
    ∧ (∀ m err, fetch m.url = Except.error err → recordResult fetch extract now m = m)
    ∧ (∀ m html, fetch m.url = Except.ok html →
        recordResult fetch extract now m =
          if pyStrip (pyOrEmpty m.last_content) = ""
             ∨ compute_hash (some (extract html m.css_selector))
                 ≠ compute_hash (some (pyOrEmpty m.last_content))
          then { m with last_content := some (extract html m.css_selector),
                        last_checked_at := now }
          else m) := by
  refine ⟨process_once_store_eq hnodup, fun m err h => recordResult_fail h,
          fun m html h => ?_⟩
  by_cases h1 : pyStrip (pyOrEmpty m.last_content) = ""
  · rw [if_pos (Or.inl h1)]
    exact recordResult_snapshot h h1
  · by_cases h2 : compute_hash (some (extract html m.css_selector))
        ≠ compute_hash (some (pyOrEmpty m.last_content))
    · rw [if_pos (Or.inr h2)]
      exact recordResult_changed h h1 h2
    · rw [if_neg (by tauto)]
      exact recordResult_unchanged h h1 (not_not.mp h2)

/-- Witness for the completion characterization on a concrete one-record
batch with distinct ids. -/
theorem run_completion_characterization_witness :
    (process_once fetchWorld extractWorld 7 [recVirgin]).1
      = [recVirgin].map (recordResult fetchWorld extractWorld 7)
    ∧ (∀ m err, fetchWorld m.url = Except.error err →
        recordResult fetchWorld extractWorld 7 m = m)
    ∧ (∀ m html, fetchWorld m.url = Except.ok html →
        recordResult fetchWorld extractWorld 7 m =
          if pyStrip (pyOrEmpty m.last_content) = ""
             ∨ compute_hash (some (extractWorld html m.css_selector))
                 ≠ compute_hash (some (pyOrEmpty m.last_content))
          then { m with last_content := some (extractWorld html m.css_selector),
                        last_checked_at := 7 }
          else m) :=
  run_completion_characterization fetchWorld extractWorld 7 [recVirgin] (by decide)

/-- Claim C6: the fingerprint is deterministic — every text hashes to itself's
digest, and equal inputs yield equal digests — absent text (`None`) is
fingerprinted identically to `""`, and the empty fragment is an ordinary
value: concretely, its digest differs from that of the non-empty fragment
`Hello` (collision freedom beyond such concrete instances is the
cryptographic assumption on SHA-256, not a provable statement). -/
theorem compute_hash_deterministic_none_as_empty :
    (∀ t : Option String, compute_hash t = compute_hash t)
    ∧ (∀ t1 t2 : Option String, t1 = t2 → compute_hash t1 = compute_hash t2)
    ∧ compute_hash none = compute_hash (some "")
    ∧ compute_hash (some "") ≠ compute_hash (some "Hello") := by
  refine ⟨fun t => rfl, fun t1 t2 h => by rw [h], rfl, ?_⟩
  decide

/-- Witness for fingerprint determinism, applied at a concrete equal pair. -/
theorem compute_hash_deterministic_none_as_empty_witness :
    compute_hash (some "Hello") = compute_hash (some "Hello") :=
  compute_hash_deterministic_none_as_empty.2.1 (some "Hello") (some "Hello") rfl

/-- Claim C7, counterexample: a record stores an empty fragment (a CHANGED
event where the fragment became empty), the next check re-snapshots a
non-empty `World` without notifying — but the check after that one does not
take the first-snapshot branch: it notifies on `World` to `Hello`. So it is
not true that every subsequent check after an empty store takes the
first-snapshot branch and never notifies. -/
theorem later_check_after_empty_store_notifies :
    recordResult fetchEmptyPage extractNone 4 recHello
      = { recHello with last_content := some "", last_checked_at := 4 }
    ∧ notifications (processRecord fetchWorld extractWorld 5
        { recHello with last_content := some "", last_checked_at := 4 }) = []
    ∧ recordResult fetchWorld extractWorld 5
        { recHello with last_content := some "", last_checked_at := 4 }
      = { recHello with last_content := some "World", last_checked_at := 5 }
    ∧ notifications (processRecord fetchHello extractHello 6
        { recHello with last_content := some "World", last_checked_at := 5 })
      = [("owner@example.com", "http://example.com/a", "World", "Hello")] := by
  refine ⟨by decide, by decide, by decide, by decide⟩

/-- Claim C7, amended: once a check stores an empty or whitespace-only
fragment as `lastContent`, any check performed while the stored fragment is
still trim-empty — in particular the one immediately following — takes the
first-snapshot branch: it overwrites `lastContent` with the new text and
never notifies, whatever the new fragment is.  Consequently a fragment
transition from empty to non-empty never produces a notification.  (Once a
non-empty fragment has been stored, later checks compare normally and may
notify.) -/
theorem empty_store_then_no_notification
    (fetch : String → Except FetchError String) (extract : String → String → String)
    (now : Nat) (m : MonitorRecord) (html : String)
    (hfetch : fetch m.url = Except.ok html)
    (hemptynew : pyStrip (extract html m.css_selector) = "")
    (hwrites : pyStrip (pyOrEmpty m.last_content) = ""
        ∨ compute_hash (some (extract html m.css_selector))
            ≠ compute_hash (some (pyOrEmpty m.last_content))) :
    (recordResult fetch extract now m).last_content = some (extract html m.css_selector)
    ∧ ∀ fetch' extract' now' html',
        fetch' m.url = Except.ok html' →
          notifications (processRecord fetch' extract' now' (recordResult fetch extract now m)) = []
          ∧ (recordResult fetch' extract' now' (recordResult fetch extract now m)).last_content
              = some (extract' html' m.css_selector) := by
  have hr : recordResult fetch extract now m
      = { m with last_content := some (extract html m.css_selector),
                 last_checked_at := now } := by
    rcases hwrites with h | h
    · exact recordResult_snapshot hfetch h
    · by_cases h1 : pyStrip (pyOrEmpty m.last_content) = ""
      · exact recordResult_snapshot hfetch h1
      · exact recordResult_changed hfetch h1 h
  refine ⟨by rw [hr], fun fetch' extract' now' html' hf' => ?_⟩
  have hvirgin : pyStrip (pyOrEmpty (recordResult fetch extract now m).last_content) = "" := by
    rw [hr]
    show pyStrip (pyOrEmpty (some (extract html m.css_selector))) = ""
    rw [pyOrEmpty_some]
    exact hemptynew
  have hf'' : fetch' (recordResult fetch extract now m).url = Except.ok html' := by
    rw [hr]
    exact hf'
  have hpr := @processRecord_snapshot fetch' extract' now'
    (recordResult fetch extract now m) html' hf'' hvirgin
  constructor
  · rw [hpr]; rfl
  · rw [@recordResult_snapshot fetch' extract' now'
      (recordResult fetch extract now m) html' hf'' hvirgin]
    show some (extract' html' (recordResult fetch extract now m).css_selector)
      = some (extract' html' m.css_selector)
    rw [hr]

/-- Witness for the amended C7 statement: the record whose stored fragment is
the empty string re-stores the (empty) extraction, and any following check —
here one extracting the non-empty `World` — does not notify and just stores
`World`. -/
theorem empty_store_then_no_notification_witness :
    (recordResult fetchEmptyPage extractNone 8 recEmptyStored).last_content = some ""
    ∧ notifications (processRecord fetchWorld extractWorld 9
        (recordResult fetchEmptyPage extractNone 8 recEmptyStored)) = []
    ∧ (recordResult fetchWorld extractWorld 9
        (recordResult fetchEmptyPage extractNone 8 recEmptyStored)).last_content
      = some "World" :=
  have h := empty_store_then_no_notification fetchEmptyPage extractNone 8 recEmptyStored
    "<h1></h1>" rfl rfl (Or.inl (by decide))
  ⟨h.1, (h.2 fetchWorld extractWorld 9 "<h1>World</h1>" rfl).1,
   (h.2 fetchWorld extractWorld 9 "<h1>World</h1>" rfl).2⟩

/-- Claim C8: `POST /worker/run` responds 500 whenever no secret is
configured in the environment (unset, or set to the falsy empty string) and
runs nothing; responds 403 whenever a secret is configured and the caller's
secret is not exactly equal to it, and runs nothing; and runs exactly one
batch (`process_once`) precisely when the secrets match exactly. -/
theorem run_worker_gate
    (workerSecret : Option String) (secret : String)
    (fetch : String → Except FetchError String) (extract : String → String → String)
    (now : Nat) (store : List MonitorRecord) :
    (pyTruthyStr workerSecret = false →
      run_worker_endpoint workerSecret secret fetch extract now store
        = (.serverError "Worker is not configured", store, []))
    ∧ (∀ s, workerSecret = some s → s ≠ "" → secret ≠ s →
      run_worker_endpoint workerSecret secret fetch extract now store
        = (.forbidden "Invalid secret", store, []))
    ∧ (∀ s, workerSecret = some s → s ≠ "" → secret = s →
      run_worker_endpoint workerSecret secret fetch extract now store
        = (.ok "Worker process completed successfully.",
           (process_once fetch extract now store).1,
           (process_once fetch extract now store).2)) := by
  refine ⟨fun h => ?_, fun s hws hne hsec => ?_, fun s hws hne hsec => ?_⟩
  · cases workerSecret with
    | none => rfl
    | some s =>
      simp only [pyTruthyStr, Bool.not_eq_false', beq_iff_eq] at h
      subst h
      rfl
  · subst hws
    show (if s = "" then _ else if secret ≠ s then _ else _) = _
    rw [if_neg hne, if_pos hsec]
  · subst hws
    show (if s = "" then _ else if secret ≠ s then _ else _) = _
    rw [if_neg hne, if_neg (not_not_intro hsec)]

/-- Witness for the trigger gate: unset secret gives 500, a wrong secret
gives 403, the exact secret runs one batch. -/
theorem run_worker_gate_witness :
    run_worker_endpoint none "anything" fetchWorld extractWorld 0 [recVirgin]
      = (.serverError "Worker is not configured", [recVirgin], [])
    ∧ run_worker_endpoint (some "s3cr3t") "wrong" fetchWorld extractWorld 0 [recVirgin]
      = (.forbidden "Invalid secret", [recVirgin], [])
    ∧ run_worker_endpoint (some "s3cr3t") "s3cr3t" fetchWorld extractWorld 0 [recVirgin]
      = (.ok "Worker process completed successfully.",
         (process_once fetchWorld extractWorld 0 [recVirgin]).1,
         (process_once fetchWorld extractWorld 0 [recVirgin]).2) :=
  ⟨(run_worker_gate none "anything" fetchWorld extractWorld 0 [recVirgin]).1 rfl,
   (run_worker_gate (some "s3cr3t") "wrong" fetchWorld extractWorld 0 [recVirgin]).2.1
     "s3cr3t" rfl (by decide) (by decide),
   (run_worker_gate (some "s3cr3t") "s3cr3t" fetchWorld extractWorld 0 [recVirgin]).2.2
     "s3cr3t" rfl (by decide) rfl⟩

/-- Claim C9, counterexample: the monitors schema has no owner key and the
delete handler takes only the id, so a delete request carrying a key that
matches nothing ("mismatched" under any reading) still removes the record
and answers `deleted`; and a nonexistent id does not answer 404 — the
handler's in-`try` 404 raise is swallowed by the blanket `except Exception`
and re-raised as HTTP 500 — while removing nothing.  The two outcomes
differ, the record is removed, and no request path answers 404. -/
theorem delete_ignores_owner_key :
    (delete_monitor_endpoint [recHello] 1 (some "mismatched-key")).1 = DeleteResponse.deleted 1
    ∧ (delete_monitor_endpoint [recHello] 1 (some "mismatched-key")).2 = []
    ∧ (delete_monitor_endpoint [recHello] 999 (some "mismatched-key")).1 = DeleteResponse.serverError
    ∧ (delete_monitor_endpoint [recHello] 999 (some "mismatched-key")).2 = [recHello] := by
  refine ⟨by decide, by decide, by decide, by decide⟩

/-- Claim C9, amended: the endpoint enforces no ownership whatsoever — its
outcome is independent of any supplied owner key; a delete naming an
existing id removes every row with that id and answers `deleted`, and a
delete naming a nonexistent id leaves the table unchanged and answers
HTTP 500, not 404: the handler's own `HTTPException(404)` is raised inside
the `try` and the blanket `except Exception` re-raises it as 500. -/
theorem delete_by_id_only
    (store : List MonitorRecord) (monitor_id : Nat) (k1 k2 : Option String) :
    delete_monitor_endpoint store monitor_id k1 = delete_monitor_endpoint store monitor_id k2
    ∧ ((∃ r ∈ store, r.id = monitor_id) →
        (delete_monitor_endpoint store monitor_id k1).1 = DeleteResponse.deleted monitor_id
        ∧ ∀ r ∈ (delete_monitor_endpoint store monitor_id k1).2, r.id ≠ monitor_id)
    ∧ ((∀ r ∈ store, r.id ≠ monitor_id) →
        delete_monitor_endpoint store monitor_id k1 = (DeleteResponse.serverError, store)) := by
  refine ⟨rfl, fun ⟨r, hr, hid⟩ => ?_, fun h => ?_⟩
  · have hany : store.any (fun r => r.id == monitor_id) = true :=
      List.any_eq_true.mpr ⟨r, hr, by simp [hid]⟩
    constructor
    · simp [delete_monitor_endpoint, hany]
    · intro r' hr'
      simp only [delete_monitor_endpoint, hany, if_true] at hr'
      have := (List.mem_filter.mp hr').2
      simp only [Bool.not_eq_true', beq_eq_false_iff_ne, ne_eq] at this
      exact this
  · have hany : store.any (fun r => r.id == monitor_id) = false := by
      rw [List.any_eq_false]
      intro r hr
      simp [h r hr]
    simp [delete_monitor_endpoint, hany]

/-- Witness for delete-by-id: deleting the stored id 1 succeeds whatever key
is supplied and leaves no row with id 1; deleting the absent id 999 answers
the re-raised 500 and leaves the table unchanged. -/
theorem delete_by_id_only_witness :
    ((delete_monitor_endpoint [recHello] 1 (some "alpha")).1 = DeleteResponse.deleted 1
      ∧ ∀ r ∈ (delete_monitor_endpoint [recHello] 1 (some "alpha")).2, r.id ≠ 1)
    ∧ delete_monitor_endpoint [recHello] 999 (some "alpha")
        = (DeleteResponse.serverError, [recHello]) :=
  ⟨(delete_by_id_only [recHello] 1 (some "alpha") (some "beta")).2.1
      ⟨recHello, by simp, rfl⟩,
   (delete_by_id_only [recHello] 999 (some "alpha") (some "beta")).2.2 (by decide)⟩

end NicheNotify
